import Mathlib

set_option maxRecDepth 40000

/-!
Shallow embedding of the MindMate backend (src/backend of
abhishekprajapatt/mindmate-hack-o-spider) in Lean 4, for checking the
natural-language specification against the code.

Modules embedded:
* `safety.py`   : `CrisisDetector` (regex patterns, high-risk phrases,
                  contextual word combinations), `get_crisis_response`.
* `nlp.py`      : `SentimentAnalyzer._score_to_label`, `_basic_sentiment`,
                  the provider-dispatch of `analyze`, and the pure tails of
                  the Google / HuggingFace provider adapters.
* `llm_client.py`: `LLMClient.generate_response` provider dispatch and
                  `_fallback_response`.
* `main.py`     : the `/chat` endpoint orchestration (history append,
                  window trim to the last 6 entries, sentiment, crisis
                  branch, reply generation with the last 3 entries as
                  context, assistant append, and the outer try/except that
                  maps any internal fault to HTTP 500).

External services (LLM providers, sentiment providers) are modelled as
oracles `String → Option _`: `some` is a successful call, `none` is a call
that raises.  Python floats are modelled as `Rat`.  Python string
operations (`in`, `str.lower`, slicing `[-n:]`) are modelled by executable
Lean functions defined below.
-/

namespace MindMate

/-- The apostrophe character (U+0027), used in several source strings. -/
def apos : String := String.singleton (Char.ofNat 39)

/-- Python `str.lower` (character-wise, as in CPython for ASCII text). -/
def py_lower (s : String) : String := ⟨s.data.map Char.toLower⟩

/-- Python `needle in hay` (list-of-chars prefix test helper). -/
def charsPref : List Char → List Char → Bool
  | [], _ => true
  | _ :: _, [] => false
  | a :: xs, b :: ys => a == b && charsPref xs ys

/-- Python `needle in hay` on lists of characters: `needle` occurs as a
contiguous sublist of `hay` (the empty needle always occurs). -/
def charsSub : List Char → List Char → Bool
  | needle, [] => needle.isEmpty
  | needle, h :: t => charsPref needle (h :: t) || charsSub needle t

/-- Python `needle in hay` on strings. -/
def strHasSub (needle hay : String) : Bool := charsSub needle.data hay.data

/-- Python `l[-n:]`: the last `n` elements of `l` (all of `l` when
`l.length ≤ n`). -/
def lastN {α : Type} (n : Nat) (l : List α) : List α := l.drop (l.length - n)

/-! ### A small regex engine for the patterns of `safety.py`

The eight `crisis_patterns` of `CrisisDetector.__init__` use only these
constructs: literal characters, `\s+`, `\s*`, `.*`, `\b`, alternation
`(?:a|b|…)` and concatenation, compiled with `re.IGNORECASE` and used via
`pattern.search`.  The engine below implements exactly those constructs:
matching is case-insensitive on literals, `\b` tests a word/non-word
boundary using the previous character, `\s` is ASCII whitespace, and `.`
matches any character except a newline. -/

/-- Regex abstract syntax: the fragment used by `crisis_patterns`. -/
inductive Regex : Type
  | lit (cs : List Char)
  | wsPlus
  | wsStar
  | dotStar
  | wb
  | seq (a b : Regex)
  | alt (a b : Regex)

/-- Python `\w` (ASCII): letters, digits and underscore. -/
def isWordChar (c : Char) : Bool := c.isAlphanum || c == '_'

/-- `isWordChar` lifted to an optional character; the ends of the string
count as non-word context. -/
def isWordOpt : Option Char → Bool
  | none => false
  | some c => isWordChar c

/-- Python `\s` (ASCII): space, tab, newline, carriage return, form feed,
vertical tab. -/
def isSpaceChar (c : Char) : Bool :=
  c == ' ' || c == '\t' || c == '\n' || c == '\r' || c == '\x0b' || c == '\x0c'

/-- Match a literal, case-insensitively; returns the new previous
character and the remainder on success. -/
def litMatch : List Char → Option Char → List Char → Option (Option Char × List Char)
  | [], prev, rest => some (prev, rest)
  | _ :: _, _, [] => none
  | c :: cs, _, h :: t =>
    if c.toLower == h.toLower then litMatch cs (some h) t else none

/-- All states reachable by consuming one or more whitespace characters. -/
def wsTails : Option Char → List Char → List (Option Char × List Char)
  | _, [] => []
  | _, h :: t =>
    if isSpaceChar h then (some h, t) :: wsTails (some h) t else []

/-- All states reachable by consuming zero or more non-newline characters
(Python `.*`). -/
def dotTails : Option Char → List Char → List (Option Char × List Char)
  | prev, [] => [(prev, [])]
  | prev, h :: t =>
    (prev, h :: t) :: (if h == '\n' then [] else dotTails (some h) t)

/-- All states (previous character, remainder) reachable by matching the
regex starting at the given state. -/
def mmatch : Regex → Option Char → List Char → List (Option Char × List Char)
  | .lit cs, prev, rest => (litMatch cs prev rest).toList
  | .wsPlus, prev, rest => wsTails prev rest
  | .wsStar, prev, rest => (prev, rest) :: wsTails prev rest
  | .dotStar, prev, rest => dotTails prev rest
  | .wb, prev, rest =>
    if isWordOpt prev != isWordOpt rest.head? then [(prev, rest)] else []
  | .seq a b, prev, rest =>
    (mmatch a prev rest).flatMap (fun pr => mmatch b pr.1 pr.2)
  | .alt a b, prev, rest => mmatch a prev rest ++ mmatch b prev rest

/-- Try to match the regex at every start position (Python
`pattern.search`). -/
def searchFrom : Regex → Option Char → List Char → Bool
  | r, prev, [] => !(mmatch r prev []).isEmpty
  | r, prev, h :: t => !(mmatch r prev (h :: t)).isEmpty || searchFrom r (some h) t

/-- `pattern.search(s)` as a Boolean: does the pattern match somewhere in
`s`? -/
def regexSearch (r : Regex) (s : String) : Bool := searchFrom r none s.data

/-- A literal word as a regex. -/
def wordRe (s : String) : Regex := .lit s.data

/-- Words joined by `\s+` (e.g. `kill\s+myself`). -/
def wordsRe : List String → Regex
  | [] => .lit []
  | [w] => wordRe w
  | w :: ws => .seq (wordRe w) (.seq .wsPlus (wordsRe ws))

/-- `(?:a|b|…)`. -/
def altList : List Regex → Regex
  | [] => .lit []
  | [r] => r
  | r :: rs => .alt r (altList rs)

/-- `\b(?:…)\b`. -/
def bounded (r : Regex) : Regex := .seq .wb (.seq r .wb)

/-! ### `safety.py` -/

/-- `CrisisDetector.crisis_patterns` (compiled with `re.IGNORECASE`), one
Lean regex per Python pattern, in source order:
1. `\b(?:kill\s+myself|suicide|end\s+my\s+life|take\s+my\s+life|want\s+to\s+die)\b`
2. `\b(?:suicidal|end\s+it\s+all|not\s+worth\s+living|better\s+off\s+dead)\b`
3. `\b(?:cut\s+myself|hurt\s+myself|self\s*harm|cutting|burning\s+myself)\b`
4. `\b(?:razor|blade|pills\s+to\s+die|overdose)\b`
5. `\b(?:going\s+to\s+kill|planning\s+to\s+die|tonight\s+.*\s+die|ready\s+to\s+die)\b`
6. `\b(?:gun|rope|bridge|jump\s+off|pills\s+.*\s+die)\b`
7. `\b(?:kill\s+(?:someone|them|him|her)|hurt\s+(?:someone|people|others))\b`
8. `\b(?:planning\s+to\s+hurt|going\s+to\s+hurt|want\s+to\s+hurt\s+(?:someone|others))\b` -/
def crisis_patterns : List Regex :=
  [ bounded (altList [wordsRe ["kill", "myself"], wordRe "suicide",
      wordsRe ["end", "my", "life"], wordsRe ["take", "my", "life"],
      wordsRe ["want", "to", "die"]]),
    bounded (altList [wordRe "suicidal", wordsRe ["end", "it", "all"],
      wordsRe ["not", "worth", "living"], wordsRe ["better", "off", "dead"]]),
    bounded (altList [wordsRe ["cut", "myself"], wordsRe ["hurt", "myself"],
      .seq (wordRe "self") (.seq .wsStar (wordRe "harm")),
      wordRe "cutting", wordsRe ["burning", "myself"]]),
    bounded (altList [wordRe "razor", wordRe "blade",
      wordsRe ["pills", "to", "die"], wordRe "overdose"]),
    bounded (altList [wordsRe ["going", "to", "kill"],
      wordsRe ["planning", "to", "die"],
      .seq (wordRe "tonight") (.seq .wsPlus (.seq .dotStar (.seq .wsPlus (wordRe "die")))),
      wordsRe ["ready", "to", "die"]]),
    bounded (altList [wordRe "gun", wordRe "rope", wordRe "bridge",
      wordsRe ["jump", "off"],
      .seq (wordRe "pills") (.seq .wsPlus (.seq .dotStar (.seq .wsPlus (wordRe "die"))))]),
    bounded (altList [
      .seq (wordRe "kill") (.seq .wsPlus (altList [wordRe "someone",
        wordRe "them", wordRe "him", wordRe "her"])),
      .seq (wordRe "hurt") (.seq .wsPlus (altList [wordRe "someone",
        wordRe "people", wordRe "others"]))]),
    bounded (altList [wordsRe ["planning", "to", "hurt"],
      wordsRe ["going", "to", "hurt"],
      .seq (wordRe "want") (.seq .wsPlus (.seq (wordRe "to") (.seq .wsPlus
        (.seq (wordRe "hurt") (.seq .wsPlus (altList [wordRe "someone",
          wordRe "others"]))))))]) ]

/-- `CrisisDetector.high_risk_phrases`. -/
def high_risk_phrases : List String :=
  [ "can" ++ apos ++ "t go on", "nothing to live for",
    "everyone would be better off without me",
    "final goodbye", "last time", "saying goodbye",
    "won" ++ apos ++ "t be here tomorrow" ]

/-- The `crisis_combinations` of `CrisisDetector._contextual_crisis_check`. -/
def crisis_combinations : List (List String) :=
  [ ["pain", "can" ++ apos ++ "t", "anymore"],
    ["tired", "fighting", "give up"],
    ["no one", "cares", "alone"],
    ["pointless", "life", "meaningless"] ]

/-- `CrisisDetector._contextual_crisis_check`: takes the lowercased
message; a rule fires when every word of the combination occurs as a
substring. -/
def _contextual_crisis_check (message : String) : Bool :=
  crisis_combinations.any (fun combination =>
    combination.all (fun word => strHasSub word message))

/-- `CrisisDetector.detect_crisis`: regex patterns first, then high-risk
phrases on the lowercased message, then the contextual check.  (The
Python `try/except` wrapper never fires on a `str` argument — every
operation used is total — and is reflected here by totality.) -/
def detect_crisis (message : String) : Bool :=
  if crisis_patterns.any (fun pattern => regexSearch pattern message) then true
  else
    let message_lower := py_lower message
    if high_risk_phrases.any (fun ph => strHasSub ph message_lower) then true
    else _contextual_crisis_check message_lower

/-- `safety.get_crisis_response`: the fixed crisis response text. -/
def get_crisis_response : String :=
  "I" ++ apos ++ "m very concerned about what you" ++ apos ++
  "ve shared with me. Your safety is the most important thing right now.\n\nPlease reach out for immediate help:\n\n🚨 **If you" ++
  apos ++
  "re in immediate danger, call emergency services (911) right away.**\n\n📞 **Crisis Support:**\n- National Suicide Prevention Lifeline: 988\n- Crisis Text Line: Text HOME to 741741\n- National Domestic Violence Hotline: 1-800-799-7233\n\n👥 **Please contact a trusted person in your life right now** - a friend, family member, counselor, or healthcare provider.\n\nYou don" ++
  apos ++
  "t have to go through this alone. Professional counselors are trained to help and want to support you through this difficult time.\n\nI care about your wellbeing, but I" ++
  apos ++
  "m not equipped to provide the immediate professional help you need right now. Please reach out to one of these resources."

/-! ### `nlp.py` -/

/-- The sentiment dictionary returned by every branch of
`SentimentAnalyzer` (`provider`, `score`, `magnitude`, `label`,
`confidence`); scores are modelled as rationals. -/
structure Sentiment where
  provider : String
  score : Rat
  magnitude : Rat
  label : String
  confidence : Rat
deriving Repr, DecidableEq

/-- `SentimentAnalyzer._score_to_label`. -/
def _score_to_label (score : Rat) : String :=
  if score > (1 : Rat) / 10 then "positive"
  else if score < -((1 : Rat) / 10) then "negative"
  else "neutral"

/-- The `positive_words` list of `SentimentAnalyzer._basic_sentiment`. -/
def positive_words : List String :=
  [ "good", "great", "happy", "joy", "love", "wonderful", "amazing",
    "excellent", "fantastic", "perfect", "awesome", "brilliant" ]

/-- The `negative_words` list of `SentimentAnalyzer._basic_sentiment`. -/
def negative_words : List String :=
  [ "bad", "terrible", "sad", "angry", "hate", "awful", "horrible",
    "depressed", "anxious", "worried", "scared", "lonely", "hopeless",
    "suicide", "kill", "die", "hurt", "pain" ]

/-- Python `sum(1 for word in words if word in text)`: the number of list
words occurring as a substring of `text`. -/
def countHits (words : List String) (text : String) : Nat :=
  (words.filter (fun word => strHasSub word text)).length

/-- `SentimentAnalyzer._basic_sentiment`: the deterministic local lexicon
scorer. -/
def _basic_sentiment (text : String) : Sentiment :=
  let text_lower := py_lower text
  let positive_count := countHits positive_words text_lower
  let negative_count := countHits negative_words text_lower
  let score_label : Rat × String :=
    if negative_count > positive_count then (-((7 : Rat) / 10), "negative")
    else if positive_count > negative_count then ((7 : Rat) / 10, "positive")
    else (0, "neutral")
  { provider := "basic", score := score_label.1,
    magnitude := |score_label.1|, label := score_label.2,
    confidence := (6 : Rat) / 10 }

/-- The pure tail of `SentimentAnalyzer._analyze_with_google`: how a raw
provider score and magnitude are packaged (label via `_score_to_label`,
confidence `min(magnitude, 1.0)`). -/
def _analyze_with_google_result (score magnitude : Rat) : Sentiment :=
  { provider := "google", score := score, magnitude := magnitude,
    label := _score_to_label score, confidence := min magnitude 1 }

/-- The pure tail of `SentimentAnalyzer._analyze_with_huggingface`: the
POSITIVE/NEGATIVE class scores are combined into `score = pos - neg`,
`confidence = max pos neg`, label via `_score_to_label`. -/
def _analyze_with_huggingface_result (positive_score negative_score : Rat) : Sentiment :=
  let score := positive_score - negative_score
  let confidence := max positive_score negative_score
  { provider := "huggingface", score := score, magnitude := confidence,
    label := _score_to_label score, confidence := confidence }

/-- `SentimentAnalyzer.analyze` provider dispatch: the Google client if
initialized, else the HuggingFace pipeline, else `_basic_sentiment`; a
Google failure falls through to HuggingFace, a HuggingFace failure (and
any other fault) falls through to `_basic_sentiment`.  Clients are
oracles: `none` means not initialized, and a `none` call result means the
call raised. -/
def analyze (google_client hf_pipeline : Option (String → Option Sentiment))
    (text : String) : Sentiment :=
  match google_client with
  | some g =>
    match g text with
    | some r => r
    | none =>
      match hf_pipeline with
      | some h => (h text).getD (_basic_sentiment text)
      | none => _basic_sentiment text
  | none =>
    match hf_pipeline with
    | some h => (h text).getD (_basic_sentiment text)
    | none => _basic_sentiment text

/-! ### `llm_client.py` -/

/-- Python `str.strip()`: remove leading and trailing whitespace. -/
def py_strip (s : String) : String :=
  ⟨(((s.data.dropWhile isSpaceChar).reverse.dropWhile isSpaceChar).reverse)⟩

/-- The three LLM clients of `LLMClient`, each `none` when its API key is
absent or initialization failed; a configured client is an oracle from the
prompt context to `Option String` (`none` = the call raised). -/
structure LLMClients where
  openai_client : Option (String → Option String)
  anthropic_client : Option (String → Option String)
  gemini_client : Option (String → Option String)

/-- The `responses` templates of `LLMClient._fallback_response`, key
`negative`. -/
def fallback_negative : String :=
  "I hear that you" ++ apos ++
  "re going through a difficult time right now. Your feelings are completely valid. Sometimes when we" ++
  apos ++
  "re struggling, it can help to take slow, deep breaths - in for 4 counts, hold for 4, out for 4. Would you like to talk about what" ++
  apos ++ "s making you feel this way?"

/-- The `responses` templates of `LLMClient._fallback_response`, key
`positive`. -/
def fallback_positive : String :=
  "I" ++ apos ++ "m glad to hear you" ++ apos ++ "re feeling positive! It" ++
  apos ++ "s wonderful that you" ++ apos ++
  "re taking time to check in with yourself. Maintaining good mental health habits, like the ones that brought you here, is really important. What" ++
  apos ++ "s been going well for you lately?"

/-- The `responses` templates of `LLMClient._fallback_response`, key
`neutral`. -/
def fallback_neutral : String :=
  "Thank you for sharing with me. I" ++ apos ++
  "m here to listen and support you. Sometimes it helps to just talk through what" ++
  apos ++
  "s on your mind. Taking a moment to breathe deeply can also be grounding. What would be most helpful for you right now?"

/-- `LLMClient._fallback_response`:
`responses.get(sentiment.label, responses[neutral])`. -/
def _fallback_response (sentiment : Sentiment) : String :=
  if sentiment.label = "negative" then fallback_negative
  else if sentiment.label = "positive" then fallback_positive
  else fallback_neutral

/-- `LLMClient.generate_response`: dispatches to the first configured
client in the fixed order OpenAI, Anthropic, Gemini; a successful call
returns its stripped text; if the chosen call raises (or no client is
configured) the `except` branch returns `_fallback_response`.  The second
component records which providers were attempted, so that the statement
"the reply chain advances to the next provider" can be examined. -/
def generate_response (clients : LLMClients) (context : String)
    (sentiment : Sentiment) : String × List String :=
  match clients.openai_client with
  | some call => (((call context).map py_strip).getD (_fallback_response sentiment), ["openai"])
  | none =>
    match clients.anthropic_client with
    | some call => (((call context).map py_strip).getD (_fallback_response sentiment), ["anthropic"])
    | none =>
      match clients.gemini_client with
      | some call => (((call context).map py_strip).getD (_fallback_response sentiment), ["gemini"])
      | none => (_fallback_response sentiment, [])

/-! ### `main.py`, the `/chat` endpoint -/

/-- One entry of a conversation history (`role`, `content`,
`timestamp`). -/
structure Message where
  role : String
  content : String
  timestamp : String
deriving Repr, DecidableEq

/-- The `ChatResponse` model of `main.py` (`resources` is set on both
branches, so it is modelled as a plain list). -/
structure ChatResponse where
  response : String
  sentiment : Sentiment
  crisis_detected : Bool
  timestamp : String
  conversation_id : String
  resources : List String
deriving Repr, DecidableEq

/-- The `resources` list returned on the crisis branch of `/chat`. -/
def crisis_resources : List String :=
  [ "National Suicide Prevention Lifeline: 988",
    "Crisis Text Line: Text HOME to 741741",
    "Emergency Services: 911",
    "Find local mental health resources at SAMHSA.gov" ]

/-- The `resources` list returned on the normal branch of `/chat`. -/
def normal_resources : List String :=
  [ "National Alliance on Mental Illness (NAMI): nami.org",
    "Mental Health America: mhanational.org",
    "Psychology Today therapist finder" ]

/-- The window trim of `/chat`: `if len(h) > 6: h = h[-6:]`. -/
def windowTrim (conversation_history : List Message) : List Message :=
  if conversation_history.length > 6 then lastN 6 conversation_history
  else conversation_history

/-- The body of the `/chat` endpoint (inside its `try`): append the user
message, trim the window to the last 6 entries, analyze sentiment, branch
on `detect_crisis` (crisis: fixed response and resources, no reply
generation), otherwise generate a reply from the last 3 entries of the
window and append it.  `analyzeO` stands for `sentiment_analyzer.analyze`
and `generateO` for `llm_client.generate_response` (which receives the
current message, the recent history and the sentiment); a `none` oracle
result models an unexpected exception inside the `try`.  The result is
the response, the stored history after the call, and the number of reply
generation calls made. -/
def chat (analyzeO : String → Option Sentiment)
    (generateO : String → List Message → Sentiment → Option String)
    (conversation_history : List Message) (conversation_id : Option String)
    (message timestamp : String) :
    Option (ChatResponse × List Message × Nat) :=
  let cid := conversation_id.getD ("conv_" ++ timestamp)
  let history_with_user := conversation_history ++ [⟨"user", message, timestamp⟩]
  let trimmed := windowTrim history_with_user
  match analyzeO message with
  | none => none
  | some sentiment =>
    if detect_crisis message then
      some ({ response := get_crisis_response, sentiment := sentiment,
              crisis_detected := true, timestamp := timestamp,
              conversation_id := cid, resources := crisis_resources },
            trimmed, 0)
    else
      let recent_messages := lastN 3 trimmed
      match generateO message recent_messages sentiment with
      | none => none
      | some response_text =>
        some ({ response := response_text, sentiment := sentiment,
                crisis_detected := false, timestamp := timestamp,
                conversation_id := cid, resources := normal_resources },
              trimmed ++ [⟨"assistant", response_text, timestamp⟩], 1)

/-- What the HTTP caller of `/chat` observes: either a `ChatResponse` (with
the updated stored history and the generation-call count) or an HTTP error
status with a detail string. -/
inductive EndpointResult
  | ok (resp : ChatResponse) (history : List Message) (llm_calls : Nat)
  | httpError (status : Nat) (detail : String)
deriving Repr, DecidableEq

/-- Whether the endpoint produced a `ChatResponse` (as opposed to an HTTP
error). -/
def EndpointResult.isOk : EndpointResult → Bool
  | .ok _ _ _ => true
  | .httpError _ _ => false

/-- The `/chat` endpoint with its outer `try/except`: any exception inside
the body is caught and re-raised as `HTTPException(status_code=500,
detail="Internal server error")`. -/
def chat_endpoint (analyzeO : String → Option Sentiment)
    (generateO : String → List Message → Sentiment → Option String)
    (conversation_history : List Message) (conversation_id : Option String)
    (message timestamp : String) : EndpointResult :=
  match chat analyzeO generateO conversation_history conversation_id message timestamp with
  | some (resp, history, calls) => .ok resp history calls
  | none => .httpError 500 "Internal server error"

/-- A neutral sentiment value, used to instantiate oracles in witnesses
and counterexamples. -/
def neutralSentiment : Sentiment :=
  { provider := "basic", score := 0, magnitude := 0, label := "neutral",
    confidence := (6 : Rat) / 10 }

/-- A sentiment-analysis oracle that always succeeds. -/
def analyzeTotal : String → Option Sentiment := fun _ => some neutralSentiment

/-- A reply-generation oracle that always succeeds. -/
def generateTotal : String → List Message → Sentiment → Option String :=
  fun _ _ _ => some "ok"

/-- A sentiment-analysis oracle that always raises: models an unexpected
internal fault inside the `try` of `/chat`. -/
def analyzeFails : String → Option Sentiment := fun _ => none

/-- An `LLMClients` value where the highest-priority provider (OpenAI) is
configured but its call raises, while the next provider (Anthropic) is
configured and would succeed. -/
def failThenOk : LLMClients :=
  { openai_client := some (fun _ => none),
    anthropic_client := some (fun _ => some "hello"),
    gemini_client := none }

/-- An `LLMClients` value with no provider configured. -/
def noClients : LLMClients :=
  { openai_client := none, anthropic_client := none, gemini_client := none }

/-- A six-entry conversation history (three full exchanges), the window at
its configured capacity. -/
def hist6 : List Message :=
  [ ⟨"user", "m1", "t"⟩, ⟨"assistant", "r1", "t"⟩,
    ⟨"user", "m2", "t"⟩, ⟨"assistant", "r2", "t"⟩,
    ⟨"user", "m3", "t"⟩, ⟨"assistant", "r3", "t"⟩ ]

/-! ### Helper lemmas about the conversation window -/

/-- `lastN n l` has at most `n` elements. -/
theorem lastN_length_le {α : Type} (n : Nat) (l : List α) :
    (lastN n l).length ≤ n := by
  simp only [lastN, List.length_drop]
  omega

/-- `lastN n l` is a suffix of `l`: taking the last `n` elements drops the
oldest elements and does not reorder the rest. -/
theorem lastN_suffix {α : Type} (n : Nat) (l : List α) :
    (lastN n l) <:+ l := List.drop_suffix _ _

/-- The trimmed window never holds more than 6 entries. -/
theorem windowTrim_length_le (l : List Message) :
    (windowTrim l).length ≤ 6 := by
  unfold windowTrim
  split_ifs with hl
  · simpa using lastN_length_le 6 l
  · omega

/-- Trimming evicts from the front only: the trimmed window is a suffix of
the untrimmed one. -/
theorem windowTrim_suffix (l : List Message) :
    (windowTrim l) <:+ l := by
  unfold windowTrim
  split_ifs with hl
  · exact lastN_suffix 6 l
  · exact List.suffix_refl l

/-- Trimming a history that ends in `u` keeps `u` as its last entry. -/
theorem windowTrim_getLast (l : List Message) (u : Message) :
    (windowTrim (l ++ [u])).getLast? = some u := by
  unfold windowTrim
  split_ifs with hl
  · unfold lastN
    rw [List.drop_append_of_le_length
      (by simp only [List.length_append, List.length_cons, List.length_nil] at hl ⊢; omega),
      List.getLast?_concat]
  · exact List.getLast?_concat _

/-- Trimming a history that ends in `u` keeps `u` as a member. -/
theorem windowTrim_mem (l : List Message) (u : Message) :
    u ∈ windowTrim (l ++ [u]) := by
  unfold windowTrim
  split_ifs with hl
  · unfold lastN
    rw [List.drop_append_of_le_length
      (by simp only [List.length_append, List.length_cons, List.length_nil] at hl ⊢; omega)]
    simp
  · simp

/-! ### The claims -/

/-- Claim C2: for every input string `CrisisDetector.detect_crisis`
returns a boolean and never raises (the detector is a total function of
the message: every operation in its body is total, so the `try/except`
wrapper never fires and no exception escapes), and the empty string yields
`false`. -/
theorem detect_crisis_total_and_empty (m : String) :
    (detect_crisis m = true ∨ detect_crisis m = false) ∧
    detect_crisis "" = false := by
  refine ⟨?_, by decide⟩
  cases h : detect_crisis m
  · exact Or.inr rfl
  · exact Or.inl rfl

/-- Claim C3: `CrisisDetector.detect_crisis` returns `true` on the four
listed crisis messages and `false` on the empty string, "I had a good
day" and "Can you help me with anxiety?". -/
theorem detect_crisis_examples :
    detect_crisis "I want to kill myself" = true ∧
    detect_crisis ("I" ++ apos ++ "m going to end my life tonight") = true ∧
    detect_crisis "I want to cut myself" = true ∧
    detect_crisis ("I" ++ apos ++ "ve been burning myself") = true ∧
    detect_crisis "" = false ∧
    detect_crisis "I had a good day" = false ∧
    detect_crisis "Can you help me with anxiety?" = false :=
  ⟨by decide, by decide, by decide, by decide, by decide, by decide, by decide⟩

/-- Claim C4: any message whose lowercased text contains "pain", "can't"
and "anymore" as substrings makes `detect_crisis` return `true` (whatever
the regex patterns and high-risk phrases do), and in general a
word-combination rule of `_contextual_crisis_check` fires exactly when
every token of its set is a substring of the lowercased message. -/
theorem contextual_combination_fires :
    (∀ m, strHasSub "pain" (py_lower m) = true →
      strHasSub ("can" ++ apos ++ "t") (py_lower m) = true →
      strHasSub "anymore" (py_lower m) = true →
      detect_crisis m = true) ∧
    (∀ message, _contextual_crisis_check message = true ↔
      crisis_combinations.any (fun combination =>
        combination.all (fun word => strHasSub word message)) = true) := by
  constructor
  · intro m h1 h2 h3
    have hctx : _contextual_crisis_check (py_lower m) = true := by
      unfold _contextual_crisis_check crisis_combinations
      simp [h1, h2, h3]
    unfold detect_crisis
    split_ifs <;> simp [hctx]
  · intro message
    exact Iff.rfl

/-- Claim C4, witness: a concrete message containing the three tokens is
flagged. -/
theorem contextual_combination_fires_witness :
    detect_crisis ("I am in pain and can" ++ apos ++ "t do this anymore") = true :=
  contextual_combination_fires.1 _ (by decide) (by decide) (by decide)

/-- Claim C7: `_score_to_label` maps a score to "positive" iff it exceeds
0.1, to "negative" iff it is below -0.1, and to "neutral" otherwise (both
boundary values 0.1 and -0.1 included); the Google and HuggingFace
adapters both label through this same function. -/
theorem score_to_label_spec :
    (∀ s : Rat,
      (_score_to_label s = "positive" ↔ s > (1 : Rat) / 10) ∧
      (_score_to_label s = "negative" ↔ s < -((1 : Rat) / 10)) ∧
      (_score_to_label s = "neutral" ↔
        (-((1 : Rat) / 10) ≤ s ∧ s ≤ (1 : Rat) / 10))) ∧
    _score_to_label ((1 : Rat) / 10) = "neutral" ∧
    _score_to_label (-((1 : Rat) / 10)) = "neutral" ∧
    (∀ score magnitude : Rat,
      (_analyze_with_google_result score magnitude).label = _score_to_label score) ∧
    (∀ positive_score negative_score : Rat,
      (_analyze_with_huggingface_result positive_score negative_score).label =
        _score_to_label (positive_score - negative_score)) := by
  have hmain : ∀ s : Rat,
      (_score_to_label s = "positive" ↔ s > (1 : Rat) / 10) ∧
      (_score_to_label s = "negative" ↔ s < -((1 : Rat) / 10)) ∧
      (_score_to_label s = "neutral" ↔
        (-((1 : Rat) / 10) ≤ s ∧ s ≤ (1 : Rat) / 10)) := ?_
  · refine ⟨hmain, (hmain _).2.2.mpr ⟨by norm_num, le_refl _⟩,
      (hmain _).2.2.mpr ⟨le_refl _, by norm_num⟩, fun _ _ => rfl, fun _ _ => rfl⟩
  intro s
  unfold _score_to_label
  split_ifs with h1 h2 <;>
    refine ⟨⟨fun he => ?_, fun hs => ?_⟩, ⟨fun he => ?_, fun hs => ?_⟩,
      ⟨fun he => ?_, fun hs => ?_⟩⟩ <;>
    first
      | rfl
      | linarith
      | (exact absurd he (by decide))
      | (exact ⟨by linarith, by linarith⟩)

/-- Claim C1: when crisis detection flags the inbound message, `/chat`
returns the fixed crisis response text (which contains "988" and "911")
with `crisis_detected = true` and a non-empty resources list, and the
reply chain is never invoked (the generation-call counter is 0). -/
theorem chat_crisis_branch (analyzeO : String → Option Sentiment)
    (generateO : String → List Message → Sentiment → Option String)
    (h : List Message) (cid : Option String) (m ts : String) (s : Sentiment)
    (hA : analyzeO m = some s) (hC : detect_crisis m = true) :
    chat analyzeO generateO h cid m ts =
      some ({ response := get_crisis_response, sentiment := s,
              crisis_detected := true, timestamp := ts,
              conversation_id := cid.getD ("conv_" ++ ts),
              resources := crisis_resources },
            windowTrim (h ++ [⟨"user", m, ts⟩]), 0) ∧
    crisis_resources ≠ [] ∧
    strHasSub "988" get_crisis_response = true ∧
    strHasSub "911" get_crisis_response = true := by
  refine ⟨?_, by decide, by decide, by decide⟩
  simp only [chat, hA, hC, if_true]

/-- Claim C1, witness: a concrete crisis message on an empty history. -/
theorem chat_crisis_branch_witness :
    chat analyzeTotal generateTotal [] none "I want to kill myself" "t" =
      some ({ response := get_crisis_response, sentiment := neutralSentiment,
              crisis_detected := true, timestamp := "t",
              conversation_id := (none : Option String).getD ("conv_" ++ "t"),
              resources := crisis_resources },
            windowTrim (([] : List Message) ++
              [⟨"user", "I want to kill myself", "t"⟩]), 0) ∧
    crisis_resources ≠ [] ∧
    strHasSub "988" get_crisis_response = true ∧
    strHasSub "911" get_crisis_response = true :=
  chat_crisis_branch analyzeTotal generateTotal [] none
    "I want to kill myself" "t" neutralSentiment rfl (by decide)

/-- Claim C5, counterexample: starting from an empty conversation, four
non-crisis exchanges leave the stored window with 7 entries, so the window
does exceed 6 entries after appends (the trim to 6 runs only after the
user-message append, and the assistant append that follows is not
trimmed). -/
theorem chat_window_overflow :
    ((chat analyzeTotal generateTotal [] none "hello" "t1").bind (fun r1 =>
      (chat analyzeTotal generateTotal r1.2.1 none "hello" "t2").bind (fun r2 =>
        (chat analyzeTotal generateTotal r2.2.1 none "hello" "t3").bind (fun r3 =>
          (chat analyzeTotal generateTotal r3.2.1 none "hello" "t4").map (fun r4 =>
            r4.2.1.length))))) = some 7 := by decide

/-- Claim C5, amended: after the user-message append the window is trimmed
to at most 6 entries; eviction drops oldest entries first without
reordering (the trimmed window is a suffix); the context passed to reply
generation is exactly the last 3 entries of the trimmed window, in
original order (a suffix of length at most 3); but after the assistant
reply is appended the stored window can hold up to 7 entries, not 6. -/
theorem chat_window_amended (analyzeO : String → Option Sentiment)
    (generateO : String → List Message → Sentiment → Option String)
    (h : List Message) (cid : Option String) (m ts : String) (s : Sentiment)
    (t : String) (hA : analyzeO m = some s) (hC : detect_crisis m = false)
    (hG : generateO m (lastN 3 (windowTrim (h ++ [⟨"user", m, ts⟩]))) s = some t) :
    (windowTrim (h ++ [⟨"user", m, ts⟩])).length ≤ 6 ∧
    (windowTrim (h ++ [⟨"user", m, ts⟩])) <:+ (h ++ [⟨"user", m, ts⟩]) ∧
    (lastN 3 (windowTrim (h ++ [⟨"user", m, ts⟩]))).length ≤ 3 ∧
    (lastN 3 (windowTrim (h ++ [⟨"user", m, ts⟩]))) <:+
      (windowTrim (h ++ [⟨"user", m, ts⟩])) ∧
    chat analyzeO generateO h cid m ts =
      some ({ response := t, sentiment := s, crisis_detected := false,
              timestamp := ts, conversation_id := cid.getD ("conv_" ++ ts),
              resources := normal_resources },
            windowTrim (h ++ [⟨"user", m, ts⟩]) ++ [(⟨"assistant", t, ts⟩ : Message)], 1) ∧
    (windowTrim (h ++ [⟨"user", m, ts⟩]) ++ [(⟨"assistant", t, ts⟩ : Message)]).length ≤ 7 := by
  refine ⟨windowTrim_length_le _, windowTrim_suffix _, lastN_length_le 3 _,
    lastN_suffix 3 _, ?_, ?_⟩
  · simp only [chat, hA, hC, hG, Bool.false_eq_true, if_false]
  · have := windowTrim_length_le (h ++ [⟨"user", m, ts⟩])
    simp only [List.length_append, List.length_cons, List.length_nil]
    omega

/-- Claim C5, witness: a full window of 6 entries plus a new exchange. -/
theorem chat_window_amended_witness :
    (windowTrim (hist6 ++ [⟨"user", "hello", "t4"⟩])).length ≤ 6 ∧
    (windowTrim (hist6 ++ [⟨"user", "hello", "t4"⟩])) <:+
      (hist6 ++ [⟨"user", "hello", "t4"⟩]) ∧
    (lastN 3 (windowTrim (hist6 ++ [⟨"user", "hello", "t4"⟩]))).length ≤ 3 ∧
    (lastN 3 (windowTrim (hist6 ++ [⟨"user", "hello", "t4"⟩]))) <:+
      (windowTrim (hist6 ++ [⟨"user", "hello", "t4"⟩])) ∧
    chat analyzeTotal generateTotal hist6 none "hello" "t4" =
      some ({ response := "ok", sentiment := neutralSentiment,
              crisis_detected := false, timestamp := "t4",
              conversation_id := (none : Option String).getD ("conv_" ++ "t4"),
              resources := normal_resources },
            windowTrim (hist6 ++ [⟨"user", "hello", "t4"⟩]) ++
              [(⟨"assistant", "ok", "t4"⟩ : Message)], 1) ∧
    (windowTrim (hist6 ++ [⟨"user", "hello", "t4"⟩]) ++
      [(⟨"assistant", "ok", "t4"⟩ : Message)]).length ≤ 7 :=
  chat_window_amended analyzeTotal generateTotal hist6 none "hello" "t4"
    neutralSentiment "ok" rfl (by decide) rfl

/-- Claim C6, counterexample: with OpenAI configured but failing and
Anthropic configured and succeeding with "hello", `generate_response`
returns the canned fallback after attempting only OpenAI — it does not
advance to the next configured provider, so "only when all providers fail"
is false. -/
theorem generate_response_no_advance :
    generate_response failThenOk "context" neutralSentiment =
      (_fallback_response neutralSentiment, ["openai"]) ∧
    (generate_response failThenOk "context" neutralSentiment).1 ≠ "hello" :=
  ⟨rfl, by decide⟩

/-- Claim C6, amended: `generate_response` selects only the single
highest-priority configured provider (OpenAI, then Anthropic, then
Gemini); when that call fails, or when no provider is configured, it
returns the deterministic canned response chosen by `sentiment.label`
(three fixed templates, never empty); it never fails outward. -/
theorem generate_response_amended (clients : LLMClients) (context : String)
    (s : Sentiment) :
    (∀ f, clients.openai_client = some f →
      generate_response clients context s =
        (((f context).map py_strip).getD (_fallback_response s), ["openai"])) ∧
    (clients.openai_client = none → ∀ f, clients.anthropic_client = some f →
      generate_response clients context s =
        (((f context).map py_strip).getD (_fallback_response s), ["anthropic"])) ∧
    (clients.openai_client = none → clients.anthropic_client = none →
      ∀ f, clients.gemini_client = some f →
        generate_response clients context s =
          (((f context).map py_strip).getD (_fallback_response s), ["gemini"])) ∧
    (clients.openai_client = none → clients.anthropic_client = none →
      clients.gemini_client = none →
        generate_response clients context s = (_fallback_response s, [])) ∧
    _fallback_response s ≠ "" := by
  refine ⟨?_, ?_, ?_, ?_, ?_⟩
  · intro f hf
    unfold generate_response
    rw [hf]
  · intro h1 f hf
    unfold generate_response
    rw [h1, hf]
  · intro h1 h2 f hf
    unfold generate_response
    rw [h1, h2, hf]
  · intro h1 h2 h3
    unfold generate_response
    rw [h1, h2, h3]
  · unfold _fallback_response
    split_ifs <;> decide

/-- Claim C6, amended, witness: with no provider configured the canned
neutral response is returned and it is non-empty. -/
theorem generate_response_amended_witness :
    generate_response noClients "context" neutralSentiment =
      (_fallback_response neutralSentiment, []) ∧
    _fallback_response neutralSentiment ≠ "" :=
  ⟨(generate_response_amended noClients "context" neutralSentiment).2.2.2.1
      rfl rfl rfl,
    (generate_response_amended noClients "context" neutralSentiment).2.2.2.2⟩

/-- Claim C8: with no sentiment provider configured, `analyze` is the
local lexicon scorer `_basic_sentiment`, which counts the positive-word
and negative-word lists as case-insensitive substrings of the text and
returns score -0.7/"negative" when negatives outnumber positives,
0.7/"positive" when positives outnumber negatives, and 0.0/"neutral" when
the counts are equal, always with confidence 0.6 and magnitude equal to
the absolute score. -/
theorem basic_sentiment_spec (text : String) :
    analyze none none text = _basic_sentiment text ∧
    (_basic_sentiment text).provider = "basic" ∧
    (_basic_sentiment text).confidence = (6 : Rat) / 10 ∧
    (_basic_sentiment text).magnitude = |(_basic_sentiment text).score| ∧
    (countHits negative_words (py_lower text) >
        countHits positive_words (py_lower text) →
      (_basic_sentiment text).score = -((7 : Rat) / 10) ∧
      (_basic_sentiment text).label = "negative") ∧
    (countHits positive_words (py_lower text) >
        countHits negative_words (py_lower text) →
      (_basic_sentiment text).score = (7 : Rat) / 10 ∧
      (_basic_sentiment text).label = "positive") ∧
    (countHits positive_words (py_lower text) =
        countHits negative_words (py_lower text) →
      (_basic_sentiment text).score = 0 ∧
      (_basic_sentiment text).label = "neutral") := by
  refine ⟨rfl, rfl, rfl, rfl, ?_, ?_, ?_⟩ <;> intro hcmp <;>
    simp only [_basic_sentiment] <;> split_ifs <;>
    first
      | exact ⟨rfl, rfl⟩
      | omega

/-- Claim C8, witness: the lexicon scorer on a concrete positive message,
reached through `analyze` with no provider configured. -/
theorem basic_sentiment_spec_witness :
    analyze none none "I love this wonderful day!" =
      _basic_sentiment "I love this wonderful day!" ∧
    (_basic_sentiment "I love this wonderful day!").score = (7 : Rat) / 10 ∧
    (_basic_sentiment "I love this wonderful day!").label = "positive" :=
  ⟨(basic_sentiment_spec "I love this wonderful day!").1,
    ((basic_sentiment_spec "I love this wonderful day!").2.2.2.2.2.1
      (by decide)).1,
    ((basic_sentiment_spec "I love this wonderful day!").2.2.2.2.2.1
      (by decide)).2⟩

/-- Claim C9, counterexample: an unexpected internal fault (here: the
sentiment step raising) is not converted into a safe fallback result — the
`/chat` endpoint catches it and sends the caller an HTTP 500 error
instead. -/
theorem chat_endpoint_error_propagates :
    chat_endpoint analyzeFails generateTotal [] none "hello" "t" =
      .httpError 500 "Internal server error" ∧
    (chat_endpoint analyzeFails generateTotal [] none "hello" "t").isOk
      = false := ⟨rfl, rfl⟩

/-- Claim C9, amended: the `/chat` endpoint never lets an exception
propagate raw: every outcome is either a normal `ChatResponse` or exactly
the HTTP 500 "Internal server error" produced by its `except` handler
(which is an error to the caller, not a fallback chat result). -/
theorem chat_endpoint_no_raise (analyzeO : String → Option Sentiment)
    (generateO : String → List Message → Sentiment → Option String)
    (h : List Message) (cid : Option String) (m ts : String) :
    (∃ resp history calls, chat_endpoint analyzeO generateO h cid m ts =
      .ok resp history calls) ∨
    chat_endpoint analyzeO generateO h cid m ts =
      .httpError 500 "Internal server error" := by
  unfold chat_endpoint
  cases hr : chat analyzeO generateO h cid m ts with
  | none => exact Or.inr rfl
  | some v =>
    obtain ⟨resp, history, calls⟩ := v
    exact Or.inl ⟨resp, history, calls, rfl⟩

/-- Claim C10: the user message is appended to the window before crisis
detection runs, so on the crisis branch the stored window still gains the
user message (only the assistant append is skipped): the flagged user
message is the last entry of the stored window and a member of it, hence
part of the history used as context for later replies. -/
theorem chat_crisis_keeps_user_message (analyzeO : String → Option Sentiment)
    (generateO : String → List Message → Sentiment → Option String)
    (h : List Message) (cid : Option String) (m ts : String) (s : Sentiment)
    (hA : analyzeO m = some s) (hC : detect_crisis m = true) :
    chat analyzeO generateO h cid m ts =
      some ({ response := get_crisis_response, sentiment := s,
              crisis_detected := true, timestamp := ts,
              conversation_id := cid.getD ("conv_" ++ ts),
              resources := crisis_resources },
            windowTrim (h ++ [⟨"user", m, ts⟩]), 0) ∧
    (windowTrim (h ++ [⟨"user", m, ts⟩])).getLast? = some ⟨"user", m, ts⟩ ∧
    (⟨"user", m, ts⟩ : Message) ∈ windowTrim (h ++ [⟨"user", m, ts⟩]) := by
  refine ⟨?_, windowTrim_getLast h _, windowTrim_mem h _⟩
  simp only [chat, hA, hC, if_true]

/-- Claim C10, witness: a crisis message arriving on a full window of 6
entries; the stored window still ends with that user message. -/
theorem chat_crisis_keeps_user_message_witness :
    chat analyzeTotal generateTotal hist6 none "I want to cut myself" "t4" =
      some ({ response := get_crisis_response, sentiment := neutralSentiment,
              crisis_detected := true, timestamp := "t4",
              conversation_id := (none : Option String).getD ("conv_" ++ "t4"),
              resources := crisis_resources },
            windowTrim (hist6 ++ [⟨"user", "I want to cut myself", "t4"⟩]), 0) ∧
    (windowTrim (hist6 ++ [⟨"user", "I want to cut myself", "t4"⟩])).getLast?
      = some ⟨"user", "I want to cut myself", "t4"⟩ ∧
    (⟨"user", "I want to cut myself", "t4"⟩ : Message) ∈
      windowTrim (hist6 ++ [⟨"user", "I want to cut myself", "t4"⟩]) :=
  chat_crisis_keeps_user_message analyzeTotal generateTotal hist6 none
    "I want to cut myself" "t4" neutralSentiment rfl (by decide)

end MindMate
